import Mathlib

/-!
Shallow embedding of the mushroom-farm monitoring dashboard (`src/a.py`).

The program is a single-page dashboard: `load_data` fetches a CSV feed,
validates eight required columns, parses the timestamp column (dropping
rows whose timestamp does not parse), and the render pass
(`show_filtered_data`, `show_temp_humidity`, `show_soil_light`, driven by
`main`) filters by a date range and draws four chart panels, each guarded
by its own exception handler.

Modelling conventions:
- A raw CSV cell is `Option String` (a missing cell is a null, as in the
  dataframe library).
- The dataframe library's timestamp parser (`to_datetime` with coercion of
  failures to null) is a parameter `parse : String → Option Timestamp`.
- A fetch is `Except String RawCsv`: the exceptional outcome of the
  network/CSV-decoding call that the source wraps in `try`.
- Chart construction is delegated to plotting libraries that may throw;
  each panel therefore takes a failure oracle `Option String` standing for
  the exception (if any) the library raises while that panel is built.
- UI calls (`st.error`, `st.warning`, `st.subheader`, widgets, charts) are
  modelled as an emitted list of `Output` values, in source order.
-/

namespace Mush

/-- Calendar dates as ordinals; only their ordering matters to the program. -/
abbrev Date := Int

/-- A parsed date-time: its date component plus a time-of-day component. -/
structure Timestamp where
  date : Date
  timeOfDay : Nat
deriving DecidableEq, Repr

/-- One raw CSV row: the cell (possibly null) under each of the eight
column names the program ever reads. -/
structure RawRow where
  timestamp : Option String
  fanState : Option String
  humidifierState : Option String
  ledBrightness : Option String
  temperature : Option String
  humidity : Option String
  soilMoisture : Option String
  lightIntensity : Option String
deriving DecidableEq, Repr

/-- The fetched dataframe: its header (`data.columns`) and its rows. -/
structure RawCsv where
  columns : List String
  rows : List RawRow
deriving DecidableEq, Repr

/-- A loaded row (a `Reading`): the timestamp has been parsed, the other
cells are kept as fetched (possibly null). -/
structure Reading where
  timestamp : Timestamp
  fanState : Option String
  humidifierState : Option String
  ledBrightness : Option String
  temperature : Option String
  humidity : Option String
  soilMoisture : Option String
  lightIntensity : Option String
deriving DecidableEq, Repr

/-- The content of one of the two line-chart panels: the x series and the
two y series, taken column-wise from the table handed to the panel. -/
structure SeriesChart where
  xs : List Timestamp
  ys1 : List (Option String)
  ys2 : List (Option String)
deriving DecidableEq, Repr

/-- One UI emission: a message, a widget, a table or a chart. -/
inductive Output where
  | subheader (s : String)
  | errorMsg (s : String)
  | warningMsg (s : String)
  | dateInput (startDate endDate : Date)
  | tableView (rows : List Reading)
  | barChart (points : List (Timestamp × String × Option String))
  | pieChart (counts : List (String × Nat))
  | lineChart (c : SeriesChart)
deriving DecidableEq, Repr

/-- `required_columns` from `load_data` (src/a.py lines 48-52). -/
def required_columns : List String :=
  ["Timestamp", "Fan State", "Humidifier State",
   "LED Brightness", "Temperature", "Humidity",
   "Soil Moisture", "Light Intensity"]

/-- Parsing one raw row: coerce the timestamp cell (null, or an
unparseable string, yields null) and keep the row only if it parsed;
this is `to_datetime(..., errors=coerce)` followed by
`dropna(subset=[Timestamp])` acting row-wise (src/a.py lines 59-60). -/
def parseRow (parse : String → Option Timestamp) (r : RawRow) : Option Reading :=
  match r.timestamp.bind parse with
  | none => none
  | some ts =>
      some { timestamp := ts, fanState := r.fanState,
             humidifierState := r.humidifierState,
             ledBrightness := r.ledBrightness,
             temperature := r.temperature, humidity := r.humidity,
             soilMoisture := r.soilMoisture,
             lightIntensity := r.lightIntensity }

/-- `load_data` (src/a.py lines 44-64): on a fetch failure the exception is
caught and reported and the table is empty; otherwise the eight required
columns are checked (missing set reported, empty table) and then the
timestamp column is parsed with unparseable rows dropped. Returns the
emitted messages together with the loaded table. -/
def load_data (parse : String → Option Timestamp)
    (fetch : Except String RawCsv) : List Output × List Reading :=
  match fetch with
  | .error e => ([.errorMsg ("Error loading data: " ++ e)], [])
  | .ok data =>
      let missing_columns :=
        required_columns.filter (fun c => c ∉ data.columns)
      if missing_columns ≠ [] then
        ([.errorMsg ("Missing columns in the data: " ++
            String.intercalate ", " missing_columns)], [])
      else
        ([], data.rows.filterMap (parseRow parse))

/-- The date-range filter (src/a.py line 86): keep the rows whose
timestamp's date component lies between the two chosen dates, inclusive. -/
def filterByDate (rows : List Reading) (start_date end_date : Date) : List Reading :=
  rows.filter (fun r =>
    start_date ≤ r.timestamp.date ∧ r.timestamp.date ≤ end_date)

/-- The non-null values of the LED Brightness column, in row order. -/
def ledValues (rows : List Reading) : List String :=
  rows.filterMap (fun r => r.ledBrightness)

/-- `value_counts` on the LED Brightness column (src/a.py line 118): one
entry per distinct non-null value with its occurrence count (nulls are
dropped, as by the dataframe library; the display order of the entries is
not modelled). -/
def led_count (rows : List Reading) : List (String × Nat) :=
  (ledValues rows).dedup.map (fun v => (v, (ledValues rows).count v))

/-- The long-form reshape of the fan/humidifier columns (src/a.py
lines 97-99): all Fan State points, then all Humidifier State points. -/
def fanHumidifierLong (rows : List Reading) :
    List (Timestamp × String × Option String) :=
  rows.map (fun r => (r.timestamp, "Fan State", r.fanState)) ++
    rows.map (fun r => (r.timestamp, "Humidifier State", r.humidifierState))

/-- The fan/humidifier bar chart guarded by its handler (src/a.py
lines 96-112): a library exception is caught and reported for this panel. -/
def tryFanChart (fail : Option String) (filtered_data : List Reading) : Output :=
  match fail with
  | some e => .errorMsg ("Error creating Fan and Humidifier plot: " ++ e)
  | none => .barChart (fanHumidifierLong filtered_data)

/-- The LED distribution chart guarded by its handler (src/a.py
lines 116-133). The column-presence test on line 117 is always true here:
the filtered table descends from a validated load, so every `Reading` has
the field; the warning branch of line 131 is unreachable. -/
def tryLedChart (fail : Option String) (filtered_data : List Reading) : Output :=
  match fail with
  | some e => .errorMsg ("Error creating LED distribution chart: " ++ e)
  | none => .pieChart (led_count filtered_data)

/-- Smallest date among the table's timestamps (src/a.py line 76). -/
def minTimestampDate (data : List Reading) : Option Date :=
  (data.map (fun r => r.timestamp.date)).min?

/-- Largest date among the table's timestamps (src/a.py line 78). -/
def maxTimestampDate (data : List Reading) : Option Date :=
  (data.map (fun r => r.timestamp.date)).max?

/-- The date pair the two pickers yield (src/a.py lines 74-84): the user's
persisted session choice if any, else the default range
`[min timestamp, max timestamp]` of the loaded table. The fallback `0` is
only reachable on an empty table, on which the pickers are never shown. -/
def chosenDates (userDates : Option (Date × Date)) (data : List Reading) :
    Date × Date :=
  userDates.getD ((minTimestampDate data).getD 0, (maxTimestampDate data).getD 0)

/-- `show_filtered_data` (src/a.py lines 67-133): on an empty table report
and return; otherwise show the pickers, filter, and on an empty filtered
set warn and return; otherwise show the table and build the two filtered
charts, each under its own handler. -/
def show_filtered_data (fanFail ledFail : Option String)
    (userDates : Option (Date × Date)) (data : List Reading) : List Output :=
  .subheader "Filter Data by Date Range" ::
    if data.isEmpty then
      [.errorMsg "No data loaded. Please check your Google Sheets link or data format."]
    else
      let d := chosenDates userDates data
      .dateInput d.1 d.2 ::
        (let filtered_data := filterByDate data d.1 d.2
         if filtered_data.isEmpty then
           [.warningMsg "No data available for the selected date range."]
         else
           [.tableView filtered_data,
            .subheader "Fan and Humidifier States Over Time",
            tryFanChart fanFail filtered_data,
            .subheader "LED State Distribution",
            tryLedChart ledFail filtered_data])

/-- The content of the temperature/humidity panel (src/a.py
lines 140-141): both series over the table it is handed. -/
def tempHumiditySeries (data : List Reading) : SeriesChart :=
  { xs := data.map (fun r => r.timestamp),
    ys1 := data.map (fun r => r.temperature),
    ys2 := data.map (fun r => r.humidity) }

/-- The content of the soil-moisture/light-intensity panel (src/a.py
lines 157-158). -/
def soilLightSeries (data : List Reading) : SeriesChart :=
  { xs := data.map (fun r => r.timestamp),
    ys1 := data.map (fun r => r.soilMoisture),
    ys2 := data.map (fun r => r.lightIntensity) }

/-- `show_temp_humidity` (src/a.py lines 136-150): subheader, then the
line chart under its own handler. -/
def show_temp_humidity (fail : Option String) (data : List Reading) : List Output :=
  [.subheader "Temperature and Humidity Over Time",
   match fail with
   | some e => .errorMsg ("Error plotting Temperature and Humidity: " ++ e)
   | none => .lineChart (tempHumiditySeries data)]

/-- `show_soil_light` (src/a.py lines 153-167). -/
def show_soil_light (fail : Option String) (data : List Reading) : List Output :=
  [.subheader "Soil Moisture and Light Intensity Over Time",
   match fail with
   | some e => .errorMsg ("Error plotting Soil Moisture and Light Intensity: " ++ e)
   | none => .lineChart (soilLightSeries data)]

/-- The render pass over an already-loaded table: the filtered view and
the two full-table time-series panels (src/a.py lines 172-174). -/
def renderPass (fanFail ledFail tempFail soilFail : Option String)
    (userDates : Option (Date × Date)) (data : List Reading) : List Output :=
  show_filtered_data fanFail ledFail userDates data ++
    show_temp_humidity tempFail data ++ show_soil_light soilFail data

/-- Everything outside the program that one execution of `main` observes:
the library's timestamp parser, the fetch outcome, the four panels'
library-failure oracles, and the session's persisted date choice. -/
structure RenderEnv where
  parse : String → Option Timestamp
  fetch : Except String RawCsv
  fanFail : Option String
  ledFail : Option String
  tempFail : Option String
  soilFail : Option String
  userDates : Option (Date × Date)

/-- `main` (src/a.py lines 170-174): load, then render every panel; the
two time-series panels receive the full loaded table. -/
def main (env : RenderEnv) : List Output :=
  let r := load_data env.parse env.fetch
  r.1 ++ renderPass env.fanFail env.ledFail env.tempFail env.soilFail
    env.userDates r.2

/-- The cache window of the memoization decorator (src/a.py line 43). -/
def cacheTTL : Nat := 5

/-- Modelled from the spec: the time-based memoization wrapping
`load_data` is implemented by the UI framework's caching decorator
(`cache_data` with a time-to-live, src/a.py line 43), whose body is not in
the source tree. Per the spec, a call within the window after the last
fetch returns the stored result without re-fetching; otherwise the call
fetches afresh and restamps the cache. Returns the result handed to the
caller, the new cache state, and whether a fetch was performed. -/
def cachedCall {α : Type} (now : Nat) (cache : Option (Nat × α)) (fresh : α) :
    α × Option (Nat × α) × Bool :=
  match cache with
  | some (t, v) =>
      if now < t + cacheTTL then (v, some (t, v), false)
      else (fresh, some (now, fresh), true)
  | none => (fresh, some (now, fresh), true)

/-! Concrete sample inputs, used to instantiate the theorems below. -/

/-- A sample timestamp parser: every string parses except "not-a-date"
(standing for the library parser on a feed with one malformed stamp). -/
def parse₀ : String → Option Timestamp := fun s =>
  if s = "not-a-date" then none else some ⟨0, 0⟩

/-- A fully populated raw row with the given timestamp cell. -/
def sampleRow (t : String) : RawRow :=
  { timestamp := some t, fanState := some "ON", humidifierState := some "OFF",
    ledBrightness := some "HIGH", temperature := some "25.0",
    humidity := some "80.0", soilMoisture := some "300",
    lightIntensity := some "120" }

/-- A feed with all eight required columns and three rows, one of them
with an unparseable timestamp. -/
def feedAll : RawCsv :=
  { columns := required_columns,
    rows := [sampleRow "2024-01-01 10:00", sampleRow "not-a-date",
             sampleRow "2024-01-02 10:00"] }

/-- A feed whose header lacks exactly the column "Humidity". -/
def feedMissingHumidity : RawCsv :=
  { columns := ["Timestamp", "Fan State", "Humidifier State",
                "LED Brightness", "Temperature", "Soil Moisture",
                "Light Intensity"],
    rows := [sampleRow "2024-01-01 10:00"] }

/-- A fully populated loaded reading dated `d`. -/
def readingAt (d : Date) : Reading :=
  { timestamp := ⟨d, 0⟩, fanState := some "ON", humidifierState := some "OFF",
    ledBrightness := some "HIGH", temperature := some "25.0",
    humidity := some "80.0", soilMoisture := some "300",
    lightIntensity := some "120" }

/-- A loaded reading whose LED Brightness cell is null. -/
def readingNullLed : Reading := { readingAt 0 with ledBrightness := none }

/-- A sample environment: a healthy fetch of `feedAll`, no library
failures, user-selected range [0, 0]. -/
def env₀ : RenderEnv :=
  { parse := parse₀, fetch := .ok feedAll, fanFail := none, ledFail := none,
    tempFail := none, soilFail := none, userDates := some (0, 0) }

/-- A sample environment whose fetch yields a feed with a missing column,
so that the load produces an empty table. -/
def envEmptyLoad : RenderEnv :=
  { parse := parse₀, fetch := .ok feedMissingHumidity, fanFail := none,
    ledFail := none, tempFail := none, soilFail := none,
    userDates := some (0, 0) }

/-! ## Shared helper lemmas -/

/-- A nonempty list is not `isEmpty`. -/
theorem isEmpty_false_of_ne_nil {α : Type} {l : List α} (h : l ≠ []) :
    l.isEmpty = false := by
  cases l with
  | nil => exact absurd rfl h
  | cons a as => rfl

/-- The loader's message stream never contains a date-picker widget. -/
theorem dateInput_not_mem_load_msgs (parse : String → Option Timestamp)
    (fetch : Except String RawCsv) (d1 d2 : Date) :
    Output.dateInput d1 d2 ∉ (load_data parse fetch).1 := by
  cases fetch with
  | error e => simp [load_data]
  | ok data =>
      by_cases hm : ∃ c ∈ required_columns, c ∉ data.columns
      · simp [load_data, hm]
      · simp [load_data, hm]

/-- Normal form of `show_filtered_data` when the table and the filtered
set are both nonempty: widgets, the table view, and the two guarded
charts, in source order. -/
theorem show_filtered_data_nonempty (fanFail ledFail : Option String)
    (u : Option (Date × Date)) (data : List Reading)
    (hne : data ≠ [])
    (hf : filterByDate data (chosenDates u data).1 (chosenDates u data).2 ≠ []) :
    show_filtered_data fanFail ledFail u data
      = [.subheader "Filter Data by Date Range",
         .dateInput (chosenDates u data).1 (chosenDates u data).2,
         .tableView (filterByDate data (chosenDates u data).1 (chosenDates u data).2),
         .subheader "Fan and Humidifier States Over Time",
         tryFanChart fanFail
           (filterByDate data (chosenDates u data).1 (chosenDates u data).2),
         .subheader "LED State Distribution",
         tryLedChart ledFail
           (filterByDate data (chosenDates u data).1 (chosenDates u data).2)] := by
  simp only [show_filtered_data, isEmpty_false_of_ne_nil hne,
    isEmpty_false_of_ne_nil hf, Bool.false_eq_true, if_false]

/-! ## Claims -/

/-- C1: for every input feed missing at least one of the eight required
columns, `load_data` returns an empty table, never a partial load, and
emits exactly one error message naming exactly the missing columns
(the required columns absent from the feed's header, comma-joined). -/
theorem c1_missing_columns (parse : String → Option Timestamp) (data : RawCsv)
    (h : ∃ c ∈ required_columns, c ∉ data.columns) :
    load_data parse (.ok data) =
      ([.errorMsg ("Missing columns in the data: " ++ String.intercalate ", "
          (required_columns.filter (fun c => c ∉ data.columns)))], []) := by
  obtain ⟨c, hc, hnc⟩ := h
  have hne : required_columns.filter (fun c => c ∉ data.columns) ≠ [] := by
    intro hnil
    have hmem : c ∈ required_columns.filter (fun c => c ∉ data.columns) := by
      simp [List.mem_filter, hc, hnc]
    rw [hnil] at hmem
    exact List.not_mem_nil c hmem
  simp only [load_data, if_pos hne]

/-- Witness for C1: the feed missing exactly "Humidity" yields an empty
table and the message "Missing columns in the data: Humidity". -/
theorem c1_missing_columns_witness :
    (∃ c ∈ required_columns, c ∉ feedMissingHumidity.columns)
    ∧ load_data parse₀ (.ok feedMissingHumidity) =
        ([.errorMsg ("Missing columns in the data: " ++ String.intercalate ", "
            (required_columns.filter (fun c => c ∉ feedMissingHumidity.columns)))], [])
    ∧ load_data parse₀ (.ok feedMissingHumidity) =
        ([.errorMsg "Missing columns in the data: Humidity"], []) :=
  ⟨by decide, c1_missing_columns parse₀ feedMissingHumidity (by decide),
   by decide⟩

/-- C2: the date-range filter retains exactly the rows whose timestamp's
date component lies in `[start_date, end_date]`, inclusive on both ends,
and no others; it is moreover a sublist (order and multiplicity of the
retained rows are preserved). -/
theorem c2_filter_exact (rows : List Reading) (start_date end_date : Date) :
    (∀ r : Reading, r ∈ filterByDate rows start_date end_date ↔
      r ∈ rows ∧ start_date ≤ r.timestamp.date ∧ r.timestamp.date ≤ end_date)
    ∧ List.Sublist (filterByDate rows start_date end_date) rows := by
  constructor
  · intro r
    simp [filterByDate, List.mem_filter]
  · exact List.filter_sublist rows

/-- Counterexample to C3 as stated: on a one-row filtered table whose LED
Brightness cell is null, the distribution counts (which drop nulls) sum to
0, not to the row count 1. -/
theorem c3_counterexample :
    ¬ (((led_count [readingNullLed]).map (fun p => p.2)).sum
        = [readingNullLed].length) := by decide

/-- C3 (amended): the per-value occurrence counts of the LED Brightness
distribution chart sum to the number of rows with a non-null LED
Brightness value (not to the full row count when nulls are present); the
chart has one entry per distinct non-null value, each non-null value
counted exactly once under its value's entry. -/
theorem c3_distribution_counts (rows : List Reading) :
    ((led_count rows).map (fun p => p.2)).sum = (ledValues rows).length
    ∧ ((led_count rows).map (fun p => p.1)).Nodup
    ∧ ∀ v : String, v ∈ ledValues rows ↔
        (v, (ledValues rows).count v) ∈ led_count rows := by
  refine ⟨?_, ?_, ?_⟩
  · simpa [led_count, List.map_map, Function.comp] using
      List.sum_map_count_dedup_eq_length (ledValues rows)
  · have hkeys : ((led_count rows).map (fun p => p.1))
        = (ledValues rows).dedup := by
      simp [led_count, List.map_map, Function.comp_def]
    rw [hkeys]
    exact List.nodup_dedup _
  · intro v
    constructor
    · intro hv
      simp only [led_count, List.mem_map]
      exact ⟨v, List.mem_dedup.2 hv, rfl⟩
    · intro hv
      simp only [led_count, List.mem_map] at hv
      obtain ⟨w, hw, heq⟩ := hv
      have : w = v := congrArg Prod.fst heq
      subst this
      exact List.mem_dedup.1 hw

/-- C4: on a feed with all eight required columns, `load_data` emits no
message, its result is exactly the rows whose timestamp parsed (in feed
order), and a reading is in the result iff it is the successful parse of
some feed row — rows with unparseable timestamps are silently absent. -/
theorem c4_unparseable_rows_dropped (parse : String → Option Timestamp)
    (data : RawCsv) (h : ∀ c ∈ required_columns, c ∈ data.columns) :
    (load_data parse (.ok data)).1 = []
    ∧ (load_data parse (.ok data)).2 = data.rows.filterMap (parseRow parse)
    ∧ ∀ rd : Reading, rd ∈ (load_data parse (.ok data)).2 ↔
        ∃ raw ∈ data.rows, parseRow parse raw = some rd := by
  have hm : required_columns.filter (fun c => c ∉ data.columns) = [] := by
    rw [List.filter_eq_nil_iff]
    intro c hc
    simp [h c hc]
  have hload : load_data parse (.ok data)
      = ([], data.rows.filterMap (parseRow parse)) := by
    simp only [load_data]
    rw [hm]
    simp
  refine ⟨by rw [hload], by rw [hload], ?_⟩
  intro rd
  rw [hload]
  simp [List.mem_filterMap]

/-- Witness for C4: the three-row feed with one "not-a-date" timestamp
loads silently to a two-row table. -/
theorem c4_unparseable_rows_dropped_witness :
    (∀ c ∈ required_columns, c ∈ feedAll.columns)
    ∧ ((load_data parse₀ (.ok feedAll)).1 = []
        ∧ (load_data parse₀ (.ok feedAll)).2
            = feedAll.rows.filterMap (parseRow parse₀))
    ∧ (load_data parse₀ (.ok feedAll)).2.length = 2 :=
  ⟨by decide,
   ⟨(c4_unparseable_rows_dropped parse₀ feedAll (by decide)).1,
    (c4_unparseable_rows_dropped parse₀ feedAll (by decide)).2.1⟩,
   by decide⟩

/-- C5: under the modelled time-based memoization, a call strictly within
`cacheTTL` time-units of the stored fetch returns the stored result with
no fetch performed and the cache unchanged, while the first call at or
past the window's end performs a fetch and restamps the cache with the
fresh result. -/
theorem c5_cache_window {α : Type} (t now : Nat) (v fresh : α) :
    (now < t + cacheTTL →
      cachedCall now (some (t, v)) fresh = (v, some (t, v), false))
    ∧ (t + cacheTTL ≤ now →
      cachedCall now (some (t, v)) fresh = (fresh, some (now, fresh), true)) := by
  constructor
  · intro h
    simp [cachedCall, h]
  · intro h
    simp [cachedCall, Nat.not_lt.2 h]

/-- Witness for C5: a fetch stored at time 0, a second call at time 2
(inside the window) served from the cache, a third call at time 7 (window
elapsed) fetching afresh. -/
theorem c5_cache_window_witness :
    ((2 < 0 + cacheTTL) ∧
      cachedCall 2 (some (0, (10 : Nat))) 20 = (10, some (0, 10), false))
    ∧ ((0 + cacheTTL ≤ 7) ∧
      cachedCall 7 (some (0, (10 : Nat))) 20 = (20, some (7, 20), true)) :=
  ⟨⟨by decide, (c5_cache_window 0 2 10 20).1 (by decide)⟩,
   ⟨by decide, (c5_cache_window 0 7 10 20).2 (by decide)⟩⟩

/-- C8: every fetch-level failure is caught inside `load_data`, reported
as exactly one error message, and yields an empty table; `load_data` is a
total function, so the failure never escapes to the caller. -/
theorem c8_fetch_failure_contained (parse : String → Option Timestamp)
    (e : String) :
    load_data parse (.error e)
      = ([.errorMsg ("Error loading data: " ++ e)], []) := rfl

/-- C6: in any render pass (nonempty table and filtered set, so that all
four panels are built), a library failure in any one of the four
presentation units is caught and reported as one standalone error message
in that panel's place, while every other emitted output — in particular
the other three panels — is unchanged. -/
theorem c6_panel_isolation (f l t s : Option String) (u : Option (Date × Date))
    (data : List Reading) (e : String)
    (hne : data ≠ [])
    (hf : filterByDate data (chosenDates u data).1 (chosenDates u data).2 ≠ []) :
    (∃ pre post,
      renderPass none l t s u data
        = pre ++ [.barChart (fanHumidifierLong
            (filterByDate data (chosenDates u data).1 (chosenDates u data).2))] ++ post
      ∧ renderPass (some e) l t s u data
        = pre ++ [.errorMsg ("Error creating Fan and Humidifier plot: " ++ e)] ++ post)
    ∧ (∃ pre post,
      renderPass f none t s u data
        = pre ++ [.pieChart (led_count
            (filterByDate data (chosenDates u data).1 (chosenDates u data).2))] ++ post
      ∧ renderPass f (some e) t s u data
        = pre ++ [.errorMsg ("Error creating LED distribution chart: " ++ e)] ++ post)
    ∧ (∃ pre post,
      renderPass f l none s u data
        = pre ++ [.lineChart (tempHumiditySeries data)] ++ post
      ∧ renderPass f l (some e) s u data
        = pre ++ [.errorMsg ("Error plotting Temperature and Humidity: " ++ e)] ++ post)
    ∧ (∃ pre post,
      renderPass f l t none u data
        = pre ++ [.lineChart (soilLightSeries data)] ++ post
      ∧ renderPass f l t (some e) u data
        = pre ++ [.errorMsg ("Error plotting Soil Moisture and Light Intensity: " ++ e)] ++ post) :=
  by
  refine ⟨⟨[.subheader "Filter Data by Date Range",
            .dateInput (chosenDates u data).1 (chosenDates u data).2,
            .tableView (filterByDate data (chosenDates u data).1 (chosenDates u data).2),
            .subheader "Fan and Humidifier States Over Time"],
           [.subheader "LED State Distribution",
            tryLedChart l (filterByDate data (chosenDates u data).1 (chosenDates u data).2)]
             ++ show_temp_humidity t data ++ show_soil_light s data, ?_, ?_⟩,
          ⟨[.subheader "Filter Data by Date Range",
            .dateInput (chosenDates u data).1 (chosenDates u data).2,
            .tableView (filterByDate data (chosenDates u data).1 (chosenDates u data).2),
            .subheader "Fan and Humidifier States Over Time",
            tryFanChart f (filterByDate data (chosenDates u data).1 (chosenDates u data).2),
            .subheader "LED State Distribution"],
           show_temp_humidity t data ++ show_soil_light s data, ?_, ?_⟩,
          ⟨show_filtered_data f l u data
             ++ [.subheader "Temperature and Humidity Over Time"],
           show_soil_light s data, ?_, ?_⟩,
          ⟨show_filtered_data f l u data ++ show_temp_humidity t data
             ++ [.subheader "Soil Moisture and Light Intensity Over Time"],
           [], ?_, ?_⟩⟩ <;>
    simp [renderPass, show_filtered_data_nonempty _ _ u data hne hf,
      tryFanChart, tryLedChart, show_temp_humidity, show_soil_light]

/-- Witness for C6: a one-row table with the user range [0, 0] and the
library failing with "boom". -/
theorem c6_panel_isolation_witness :
    ([readingAt 0] ≠ ([] : List Reading))
    ∧ (filterByDate [readingAt 0]
        (chosenDates (some (0, 0)) [readingAt 0]).1
        (chosenDates (some (0, 0)) [readingAt 0]).2 ≠ [])
    ∧ ((∃ pre post,
      renderPass none none none none (some (0, 0)) [readingAt 0]
        = pre ++ [.barChart (fanHumidifierLong
            (filterByDate [readingAt 0]
              (chosenDates (some (0, 0)) [readingAt 0]).1
              (chosenDates (some (0, 0)) [readingAt 0]).2))] ++ post
      ∧ renderPass (some "boom") none none none (some (0, 0)) [readingAt 0]
        = pre ++ [.errorMsg ("Error creating Fan and Humidifier plot: " ++ "boom")] ++ post)
    ∧ (∃ pre post,
      renderPass none none none none (some (0, 0)) [readingAt 0]
        = pre ++ [.pieChart (led_count
            (filterByDate [readingAt 0]
              (chosenDates (some (0, 0)) [readingAt 0]).1
              (chosenDates (some (0, 0)) [readingAt 0]).2))] ++ post
      ∧ renderPass none (some "boom") none none (some (0, 0)) [readingAt 0]
        = pre ++ [.errorMsg ("Error creating LED distribution chart: " ++ "boom")] ++ post)
    ∧ (∃ pre post,
      renderPass none none none none (some (0, 0)) [readingAt 0]
        = pre ++ [.lineChart (tempHumiditySeries [readingAt 0])] ++ post
      ∧ renderPass none none (some "boom") none (some (0, 0)) [readingAt 0]
        = pre ++ [.errorMsg ("Error plotting Temperature and Humidity: " ++ "boom")] ++ post)
    ∧ (∃ pre post,
      renderPass none none none none (some (0, 0)) [readingAt 0]
        = pre ++ [.lineChart (soilLightSeries [readingAt 0])] ++ post
      ∧ renderPass none none none (some "boom") (some (0, 0)) [readingAt 0]
        = pre ++ [.errorMsg ("Error plotting Soil Moisture and Light Intensity: " ++ "boom")] ++ post)) :=
  ⟨by decide, by decide,
   c6_panel_isolation none none none none (some (0, 0)) [readingAt 0] "boom"
     (by decide) (by decide)⟩

/-- Counterexample to C7 as stated: on an empty loaded table (in the
claim's scope, since an empty range intersects no row) with the reversed
range [5, 3], the renderer surfaces the no-data error, not the
empty-range notice. -/
theorem c7_counterexample :
    show_filtered_data none none (some (5, 3)) []
      = [.subheader "Filter Data by Date Range",
         .errorMsg "No data loaded. Please check your Google Sheets link or data format."]
    ∧ (Output.warningMsg "No data available for the selected date range.")
        ∉ show_filtered_data none none (some (5, 3)) [] := by
  constructor
  · rfl
  · decide

/-- C7 (amended): for every **nonempty** loaded table and user-selected
range that is reversed (start after end) or intersects no row's date, the
filter yields an empty table and the renderer emits exactly the header,
the pickers and the empty-range notice — no table view and no chart
construction, and (the functions being total) no crash. -/
theorem c7_empty_range (f l : Option String) (data : List Reading)
    (d1 d2 : Date) (hne : data ≠ [])
    (h : d2 < d1 ∨ ∀ r ∈ data, ¬ (d1 ≤ r.timestamp.date ∧ r.timestamp.date ≤ d2)) :
    filterByDate data d1 d2 = []
    ∧ show_filtered_data f l (some (d1, d2)) data
        = [.subheader "Filter Data by Date Range", .dateInput d1 d2,
           .warningMsg "No data available for the selected date range."] := by
  have hfil : filterByDate data d1 d2 = [] := by
    rw [filterByDate, List.filter_eq_nil_iff]
    intro r hr
    rcases h with h | h
    · intro hcon
      rw [decide_eq_true_eq] at hcon
      obtain ⟨h1, h2⟩ := hcon
      exact absurd (h1.trans h2) (not_le.mpr h)
    · simpa using h r hr
  refine ⟨hfil, ?_⟩
  simp [show_filtered_data, isEmpty_false_of_ne_nil hne, chosenDates, hfil]

/-- Witness for C7 (amended): a table with one row dated 0 and the
reversed range [5, 3]. -/
theorem c7_empty_range_witness :
    ([readingAt 0] ≠ ([] : List Reading))
    ∧ ((3 : Date) < 5 ∨ ∀ r ∈ [readingAt 0],
        ¬ ((5 : Date) ≤ r.timestamp.date ∧ r.timestamp.date ≤ 3))
    ∧ (filterByDate [readingAt 0] 5 3 = []
        ∧ show_filtered_data none none (some (5, 3)) [readingAt 0]
            = [.subheader "Filter Data by Date Range", .dateInput 5 3,
               .warningMsg "No data available for the selected date range."]) :=
  ⟨by decide, Or.inl (by decide),
   c7_empty_range none none [readingAt 0] 5 3 (by decide) (Or.inl (by decide))⟩

/-- C9: whatever date range the session holds, the two time-series panels
of the render pass chart the full loaded table: their data is the series
over every loaded row (x = each row's timestamp, in table order), not over
the date-filtered subset. -/
theorem c9_full_table_series (env : RenderEnv)
    (ht : env.tempFail = none) (hs : env.soilFail = none) :
    Output.lineChart (tempHumiditySeries (load_data env.parse env.fetch).2)
        ∈ main env
    ∧ Output.lineChart (soilLightSeries (load_data env.parse env.fetch).2)
        ∈ main env
    ∧ (tempHumiditySeries (load_data env.parse env.fetch).2).xs
        = ((load_data env.parse env.fetch).2).map (fun r => r.timestamp)
    ∧ (soilLightSeries (load_data env.parse env.fetch).2).xs
        = ((load_data env.parse env.fetch).2).map (fun r => r.timestamp) := by
  refine ⟨?_, ?_, rfl, rfl⟩ <;>
    simp [main, renderPass, show_temp_humidity, show_soil_light, ht, hs]

/-- Witness for C9: the healthy environment `env₀` (whose session range
[0, 0] is a strict subrange of nothing in particular) charts the full
two-row loaded table in both panels. -/
theorem c9_full_table_series_witness :
    (env₀.tempFail = none) ∧ (env₀.soilFail = none)
    ∧ (Output.lineChart (tempHumiditySeries (load_data env₀.parse env₀.fetch).2)
          ∈ main env₀
        ∧ Output.lineChart (soilLightSeries (load_data env₀.parse env₀.fetch).2)
          ∈ main env₀
        ∧ (tempHumiditySeries (load_data env₀.parse env₀.fetch).2).xs
          = ((load_data env₀.parse env₀.fetch).2).map (fun r => r.timestamp)
        ∧ (soilLightSeries (load_data env₀.parse env₀.fetch).2).xs
          = ((load_data env₀.parse env₀.fetch).2).map (fun r => r.timestamp)) :=
  ⟨rfl, rfl, c9_full_table_series env₀ rfl rfl⟩

/-- C10: when the load yields an empty table, the filtered view emits the
no-data error and nothing further — no date pickers appear anywhere in the
pass (so the min/max default-range computation over the empty table is
never reached) and no filtered view is built — while the two full-table
time-series panels are still invoked, with the empty table. -/
theorem c10_empty_load (env : RenderEnv)
    (h : (load_data env.parse env.fetch).2 = []) :
    show_filtered_data env.fanFail env.ledFail env.userDates
        (load_data env.parse env.fetch).2
      = [.subheader "Filter Data by Date Range",
         .errorMsg "No data loaded. Please check your Google Sheets link or data format."]
    ∧ (∀ d1 d2 : Date, Output.dateInput d1 d2 ∉ main env)
    ∧ main env = (load_data env.parse env.fetch).1
        ++ [.subheader "Filter Data by Date Range",
            .errorMsg "No data loaded. Please check your Google Sheets link or data format."]
        ++ show_temp_humidity env.tempFail []
        ++ show_soil_light env.soilFail [] := by
  have hsfd : show_filtered_data env.fanFail env.ledFail env.userDates
      ([] : List Reading)
      = [.subheader "Filter Data by Date Range",
         .errorMsg "No data loaded. Please check your Google Sheets link or data format."] := by
    simp [show_filtered_data]
  refine ⟨by rw [h]; exact hsfd, ?_, ?_⟩
  · intro d1 d2
    have hmsg := dateInput_not_mem_load_msgs env.parse env.fetch d1 d2
    cases htf : env.tempFail <;> cases hsf : env.soilFail <;>
      simp [main, renderPass, h, hsfd, show_temp_humidity, show_soil_light,
        htf, hsf, hmsg]
  · simp only [main, renderPass, h, hsfd]
    simp [List.append_assoc]

/-- Witness for C10: the environment whose fetch is missing the Humidity
column loads an empty table; the pass still runs both time-series panels
on it. -/
theorem c10_empty_load_witness :
    ((load_data envEmptyLoad.parse envEmptyLoad.fetch).2 = [])
    ∧ (show_filtered_data envEmptyLoad.fanFail envEmptyLoad.ledFail
          envEmptyLoad.userDates (load_data envEmptyLoad.parse envEmptyLoad.fetch).2
        = [.subheader "Filter Data by Date Range",
           .errorMsg "No data loaded. Please check your Google Sheets link or data format."]
      ∧ (∀ d1 d2 : Date, Output.dateInput d1 d2 ∉ main envEmptyLoad)
      ∧ main envEmptyLoad = (load_data envEmptyLoad.parse envEmptyLoad.fetch).1
          ++ [.subheader "Filter Data by Date Range",
              .errorMsg "No data loaded. Please check your Google Sheets link or data format."]
          ++ show_temp_humidity envEmptyLoad.tempFail []
          ++ show_soil_light envEmptyLoad.soilFail []) :=
  ⟨by decide, c10_empty_load envEmptyLoad (by decide)⟩

end Mush
